import Mathlib

/-!
Verification of the facerec identity-matching and access-decision core
(`src/main.rs`) as a shallow embedding in Lean 4.

Modelling conventions:
- Rust `f32` values are idealised as real numbers (`ℝ`).  Lean's convention
  `x / 0 = 0` models the fact that in the source a similarity computed with a
  zero norm product never satisfies the strict comparison `> 0.9` (in `f32`
  the division yields `NaN`, and `NaN > 0.9` is likewise false).
- The backing file `./face_data.json` is modelled as `Option FileContent`:
  `none` means the file is absent, `some c` that it exists with content `c`.
- A Rust panic (`expect` / `unwrap`) is modelled by the `none` outcome of an
  `Option` result: the operation aborts and produces no value.
- `serde_json` is an external library; its serialisation is modelled
  abstractly by the constructor `FileContent.serialized`, whose parse is the
  stored record list (serde's documented round-trip contract), while
  `FileContent.malformed` stands for any file content that fails to parse as
  `Vec<FaceEntry>`.
- `Uuid::new_v4` (external crate) is modelled by passing the freshly
  generated id string explicitly.
-/

namespace Facerec

/-- `FaceEntry` from src/main.rs lines 12-17: identifier, feature vector
(`Vec<f32>`, idealised as `List ℝ`), and access decision. -/
structure FaceEntry where
  id : String
  features : List ℝ
  allowed : Bool

/-- Content of the backing file.  `serialized rs` is the output of
`serde_json::to_string_pretty` on the record list `rs`; `malformed raw` is any
content that does not parse as a record list. -/
inductive FileContent where
  | serialized (records : List FaceEntry) : FileContent
  | malformed (raw : String) : FileContent

/-- Result of `serde_json::from_str::<Vec<FaceEntry>>` on file content,
modelled through serde's round-trip contract. -/
def parseContent : FileContent → Option (List FaceEntry)
  | FileContent.serialized rs => some rs
  | FileContent.malformed _ => none

/-- `load_face_data` (src/main.rs lines 30-39).  The file is opened with
`.expect(...)` (the `.create(true)` line is commented out in the source), so an
absent file panics — modelled by `none`.  Content that fails to parse falls
back to the empty vector via `unwrap_or_else(|_| vec![])`. -/
def load_face_data (fs : Option FileContent) : Option (List FaceEntry) :=
  match fs with
  | none => none
  | some c => some ((parseContent c).getD [])

/-- `save_face_data` (src/main.rs lines 42-49): re-loads the current data
(panicking if that load panics), pushes the entry, and rewrites the whole file
with the new list serialised. -/
def save_face_data (entry : FaceEntry) (fs : Option FileContent) :
    Option (Option FileContent) :=
  (load_face_data fs).map (fun data => some (FileContent.serialized (data ++ [entry])))

/-- The dot-product line of `cosine_similarity` (src/main.rs line 53):
`v1.iter().zip(v2).map(|(a, b)| a * b).sum()`. -/
def dotProd (v1 v2 : List ℝ) : ℝ :=
  ((v1.zip v2).map (fun p => p.1 * p.2)).sum

/-- The sum of squares appearing in the magnitude lines (src/main.rs
lines 54-55): `v.iter().map(|a| a * a).sum::<f32>()`. -/
def sumSq (v : List ℝ) : ℝ :=
  (v.map (fun a => a * a)).sum

/-- A magnitude line of `cosine_similarity` (src/main.rs lines 54-55):
square root of the sum of squares. -/
noncomputable def magnitude (v : List ℝ) : ℝ :=
  Real.sqrt (sumSq v)

/-- `cosine_similarity` (src/main.rs lines 52-57): `dot / (mag1 * mag2)`. -/
noncomputable def cosine_similarity (v1 v2 : List ℝ) : ℝ :=
  dotProd v1 v2 / (magnitude v1 * magnitude v2)

/-- The matching predicate of `find_existing_face` (src/main.rs line 64):
`cosine_similarity(&face.features, features) > 0.9`. -/
noncomputable def matchPred (features : List ℝ) (face : FaceEntry) : Bool :=
  decide (cosine_similarity face.features features > 0.9)

/-- `find_existing_face` (src/main.rs lines 60-66): loads the store (panicking
when the load panics) and returns the first entry whose similarity to the
query strictly exceeds `0.9`. -/
noncomputable def find_existing_face (features : List ℝ) (fs : Option FileContent) :
    Option (Option FaceEntry) :=
  (load_face_data fs).map (fun known => known.find? (matchPred features))

/-- The decision computation on the Unmatched path (src/main.rs line 134):
`response.trim().to_lowercase() == "j"`. -/
def responseDecision (response : String) : Bool :=
  response.trim.toLower == "j"

/-- The per-face body of the loop in `recognize_face_from_camera`
(src/main.rs lines 117-144), restricted to the access-decision core: on a
store hit the stored decision is emitted and nothing is written; on a miss the
decision is computed from the terminal response, a new entry is built with a
fresh id (`Uuid::new_v4`, passed in as `newId`), and the store is rewritten.
Returns the emitted decision together with the resulting file state; `none`
models a panic. -/
noncomputable def process_face (fs : Option FileContent) (features : List ℝ)
    (input : String) (newId : String) : Option (Bool × Option FileContent) :=
  match find_existing_face features fs with
  | none => none
  | some (some existing) => some (existing.allowed, fs)
  | some none =>
    match save_face_data ⟨newId, features, responseDecision input⟩ fs with
    | none => none
    | some fsNew => some (responseDecision input, fsNew)

/-- The dot product exactly as the spec words it: sum of pairwise products.
Modelled from the spec, for comparison with the source's `dotProd`. -/
def dotProduct (a b : List ℝ) : ℝ :=
  (List.zipWith (fun x y => x * y) a b).sum

/-- The Euclidean norm exactly as the spec words it: square root of the sum of
the squares.  Modelled from the spec, for comparison with `magnitude`. -/
noncomputable def euclideanNorm (v : List ℝ) : ℝ :=
  Real.sqrt ((v.map (fun x => x ^ 2)).sum)

/-! ### Helper lemmas -/

theorem dotProd_nil_left (b : List ℝ) : dotProd [] b = 0 := rfl

theorem dotProd_nil_right (a : List ℝ) : dotProd a [] = 0 := by
  simp [dotProd]

theorem dotProd_cons_cons (x y : ℝ) (xs ys : List ℝ) :
    dotProd (x :: xs) (y :: ys) = x * y + dotProd xs ys := by
  simp [dotProd]

theorem sumSq_nonneg (v : List ℝ) : 0 ≤ sumSq v := by
  apply List.sum_nonneg
  intro x hx
  simp only [List.mem_map] at hx
  obtain ⟨a, _, rfl⟩ := hx
  exact mul_self_nonneg a

theorem dotProd_self (v : List ℝ) : dotProd v v = sumSq v := by
  induction v with
  | nil => rfl
  | cons x xs ih =>
      rw [dotProd_cons_cons, ih]
      simp [sumSq]

theorem magnitude_mul_self (v : List ℝ) : magnitude v * magnitude v = sumSq v :=
  Real.mul_self_sqrt (sumSq_nonneg v)

/-- With a nonzero magnitude, a vector has cosine similarity `1` with itself. -/
theorem cosine_similarity_self (v : List ℝ) (h : magnitude v ≠ 0) :
    cosine_similarity v v = 1 := by
  have hs : sumSq v ≠ 0 := by
    intro h0
    exact h (by simp [magnitude, h0, Real.sqrt_zero])
  simp only [cosine_similarity, dotProd_self, magnitude_mul_self]
  exact div_self hs

/-- A zero magnitude for the query forces every similarity against it to `0`
(division by a zero norm product). -/
theorem cosine_similarity_zero_right (v q : List ℝ) (h : magnitude q = 0) :
    cosine_similarity v q = 0 := by
  simp [cosine_similarity, h]

theorem matchPred_false_of_le (features : List ℝ) (face : FaceEntry)
    (h : ¬ cosine_similarity face.features features > 0.9) :
    matchPred features face = false := by
  simp [matchPred, h]

theorem matchPred_true_of_gt (features : List ℝ) (face : FaceEntry)
    (h : cosine_similarity face.features features > 0.9) :
    matchPred features face = true := by
  simp [matchPred, h]

/-- Unfolding the Unmatched branch of `process_face` when the load succeeds. -/
theorem process_face_unmatched (fs : Option FileContent) (rs : List FaceEntry)
    (features : List ℝ) (input newId : String)
    (hload : load_face_data fs = some rs)
    (hfind : find_existing_face features fs = some none) :
    process_face fs features input newId =
      some (responseDecision input,
        some (FileContent.serialized (rs ++ [⟨newId, features, responseDecision input⟩]))) := by
  unfold process_face
  rw [hfind]
  unfold save_face_data
  rw [hload]
  rfl

theorem matchPred_eq_true_iff (q : List ℝ) (face : FaceEntry) :
    matchPred q face = true ↔ cosine_similarity face.features q > 0.9 := by
  simp [matchPred]

theorem matchPred_eq_false_iff (q : List ℝ) (face : FaceEntry) :
    matchPred q face = false ↔ ¬ cosine_similarity face.features q > 0.9 := by
  simp [matchPred]

theorem find_existing_face_eq (features : List ℝ) (fs : Option FileContent)
    (rs : List FaceEntry) (h : load_face_data fs = some rs) :
    find_existing_face features fs = some (rs.find? (matchPred features)) := by
  unfold find_existing_face
  rw [h]
  rfl

theorem find_existing_face_serialized (features : List ℝ) (rs : List FaceEntry) :
    find_existing_face features (some (FileContent.serialized rs)) =
      some (rs.find? (matchPred features)) := rfl

theorem process_face_matched (fs : Option FileContent) (features : List ℝ)
    (r : FaceEntry) (input newId : String)
    (h : find_existing_face features fs = some (some r)) :
    process_face fs features input newId = some (r.allowed, fs) := by
  unfold process_face
  rw [h]

/-! ### Concrete fixtures for witnesses and counterexamples -/

def entryA : FaceEntry := ⟨"a1", [1], true⟩

def entryB : FaceEntry := ⟨"b2", [0, 1], false⟩

def fsEmpty : Option FileContent := some (FileContent.serialized [])

def fsA : Option FileContent := some (FileContent.serialized [entryA])

theorem magnitude_one : magnitude [(1 : ℝ)] = 1 := by
  simp [magnitude, sumSq]

theorem cosine_similarity_one_one : cosine_similarity [(1 : ℝ)] [1] = 1 := by
  apply cosine_similarity_self
  rw [magnitude_one]
  norm_num

theorem find_entryA : find_existing_face [1] fsA = some (some entryA) := by
  have hp : matchPred [1] entryA = true := by
    apply matchPred_true_of_gt
    show cosine_similarity [(1 : ℝ)] [1] > 0.9
    rw [cosine_similarity_one_one]
    norm_num
  rw [show fsA = some (FileContent.serialized [entryA]) from rfl,
    find_existing_face_serialized, List.find?_cons_of_pos _ hp]

/-! ### Claims -/

/-- C1 (amended): when the backing file is absent, `load_face_data` fails
(the process aborts via the `expect` on the file-open) rather than returning
the empty sequence; the empty-sequence fallback applies only to content that
exists but does not parse. -/
theorem spec_c1 : load_face_data none = none := rfl

/-- C1 counterexample: on an absent backing file, `load_face_data` does not
return the empty record sequence, contrary to the claim. -/
theorem spec_c1_counterexample : ¬ load_face_data none = some [] := by
  intro h
  simp [load_face_data] at h

/-- C2: against a loadable store, `find_existing_face` returns exactly the
stored record with the lowest insertion index whose cosine similarity to the
query strictly exceeds `0.9`; it returns nothing when no record's similarity
strictly exceeds `0.9`; and it never returns a record whose similarity is
exactly `0.9`. -/
theorem spec_c2 (q : List ℝ) (fs : Option FileContent) (rs : List FaceEntry)
    (h : load_face_data fs = some rs) :
    (∀ r : FaceEntry, find_existing_face q fs = some (some r) ↔
        cosine_similarity r.features q > 0.9 ∧
          ∃ l₁ l₂, rs = l₁ ++ r :: l₂ ∧
            ∀ x ∈ l₁, ¬ cosine_similarity x.features q > 0.9) ∧
    (find_existing_face q fs = some none ↔
        ∀ r ∈ rs, ¬ cosine_similarity r.features q > 0.9) ∧
    (∀ r : FaceEntry, cosine_similarity r.features q = 0.9 →
        find_existing_face q fs ≠ some (some r)) := by
  have hff := find_existing_face_eq q fs rs h
  refine ⟨?_, ?_, ?_⟩
  · intro r
    rw [hff, Option.some_inj, List.find?_eq_some]
    simp only [Bool.not_eq_true', matchPred_eq_true_iff, matchPred_eq_false_iff]
  · rw [hff, Option.some_inj, List.find?_eq_none]
    simp only [matchPred_eq_true_iff]
  · intro r h09 hcontra
    rw [hff, Option.some_inj] at hcontra
    have hp := List.find?_some hcontra
    rw [matchPred_eq_true_iff, h09] at hp
    exact lt_irrefl _ hp

/-- C2 witness: a concrete loadable store on which the no-match
characterisation of `spec_c2` is obtained. -/
theorem spec_c2_witness :
    load_face_data fsA = some [entryA] ∧
    (find_existing_face [0] fsA = some none ↔
        ∀ r ∈ [entryA], ¬ cosine_similarity r.features [0] > 0.9) :=
  ⟨rfl, (spec_c2 [0] fsA [entryA] rfl).2.1⟩

/-- C4: whenever the prior load succeeds, `save_face_data` of `r` rewrites the
file so that a subsequent `load_face_data` returns the previous load result
with `r` appended at the end, the previously stored records surviving
unchanged as the prefix. -/
theorem spec_c4 (r : FaceEntry) (fs : Option FileContent) (prev : List FaceEntry)
    (h : load_face_data fs = some prev) :
    save_face_data r fs = some (some (FileContent.serialized (prev ++ [r]))) ∧
    load_face_data (some (FileContent.serialized (prev ++ [r]))) = some (prev ++ [r]) ∧
    (prev ++ [r]).take prev.length = prev := by
  refine ⟨?_, rfl, List.take_left prev [r]⟩
  unfold save_face_data
  rw [h]
  rfl

/-- C4 witness: appending a concrete record to a concrete one-record store. -/
theorem spec_c4_witness :
    load_face_data fsA = some [entryA] ∧
    save_face_data entryB fsA =
      some (some (FileContent.serialized ([entryA] ++ [entryB]))) :=
  ⟨rfl, (spec_c4 entryB fsA [entryA] rfl).1⟩

/-- C5: when the backing file exists and is readable but its content fails to
parse as the record schema, `load_face_data` returns the empty sequence
rather than an error. -/
theorem spec_c5 (raw : String) :
    load_face_data (some (FileContent.malformed raw)) = some [] := rfl

/-- C7: `cosine_similarity` equals the dot product of the two vectors divided
by the product of their Euclidean norms (the latter two written exactly as
the spec words them). -/
theorem spec_c7 (a b : List ℝ) :
    cosine_similarity a b = dotProduct a b / (euclideanNorm a * euclideanNorm b) := by
  have hd : ∀ y : List ℝ, dotProd a y = dotProduct a y := by
    induction a with
    | nil => intro y; cases y <;> rfl
    | cons x xs ih =>
        intro y
        cases y with
        | nil => rfl
        | cons z zs => simp [dotProd_cons_cons, dotProduct, ih zs]
  have hsq : (fun a : ℝ => a * a) = fun x : ℝ => x ^ 2 := by
    funext x
    ring
  rw [cosine_similarity, hd, magnitude, magnitude, euclideanNorm, euclideanNorm,
    sumSq, sumSq, hsq]

theorem dotProd_take_min (a b : List ℝ) :
    dotProd a b =
      dotProd (a.take (min a.length b.length)) (b.take (min a.length b.length)) := by
  induction a generalizing b with
  | nil => simp [dotProd]
  | cons x xs ih =>
      cases b with
      | nil => simp [dotProd]
      | cons y ys =>
          simp only [List.length_cons, Nat.succ_min_succ, List.take_succ_cons,
            dotProd_cons_cons]
          rw [ih]

/-- C10: `cosine_similarity` is a total function on any pair of lengths: the
dot product only ranges over the first `min` length element pairs, while each
magnitude is taken over that vector's full length. -/
theorem spec_c10 (a b : List ℝ) :
    cosine_similarity a b =
      dotProd (a.take (min a.length b.length)) (b.take (min a.length b.length)) /
        (magnitude a * magnitude b) := by
  rw [cosine_similarity, dotProd_take_min]

/-- The record enrolled by the C3 counterexample run: the all-zero embedding
with the decision obtained for the response `"n"`. -/
def zeroEntry : FaceEntry := ⟨"z0", [0, 0, 0], responseDecision "n"⟩

theorem magnitude_zero_vec : magnitude [(0 : ℝ), 0, 0] = 0 := by
  simp [magnitude, sumSq]

/-- C3 counterexample: on the empty store, the all-zero embedding `[0,0,0]`
takes the Unmatched path and is enrolled with the decision obtained for the
response `"n"`, yet a subsequent query with the same embedding vector is not
Matched by any record: its self-similarity is a division by a zero norm
product, not strictly above `0.9`. -/
theorem spec_c3_counterexample :
    process_face fsEmpty [0, 0, 0] "n" "z0" =
      some (responseDecision "n", some (FileContent.serialized ([] ++ [zeroEntry]))) ∧
    ∀ r : FaceEntry,
      find_existing_face [0, 0, 0] (some (FileContent.serialized ([] ++ [zeroEntry]))) ≠
        some (some r) := by
  constructor
  · exact process_face_unmatched fsEmpty [] [0, 0, 0] "n" "z0" rfl rfl
  · intro r hcontra
    rw [find_existing_face_serialized, Option.some_inj] at hcontra
    have hp := List.find?_some hcontra
    rw [matchPred_eq_true_iff] at hp
    rw [cosine_similarity_zero_right r.features [0, 0, 0] magnitude_zero_vec] at hp
    norm_num at hp

/-- C3 (amended): for every embedding vector of nonzero magnitude that takes
the Unmatched path and is enrolled with decision `D = responseDecision input`,
a subsequent query with the same embedding vector against the resulting store
returns Matched with decision `D`. -/
theorem spec_c3 (features : List ℝ) (fs : Option FileContent) (rs : List FaceEntry)
    (input newId : String)
    (hmag : magnitude features ≠ 0)
    (hload : load_face_data fs = some rs)
    (hunmatched : find_existing_face features fs = some none) :
    process_face fs features input newId =
      some (responseDecision input,
        some (FileContent.serialized (rs ++ [⟨newId, features, responseDecision input⟩]))) ∧
    ∃ r : FaceEntry,
      find_existing_face features
          (some (FileContent.serialized
            (rs ++ [⟨newId, features, responseDecision input⟩]))) = some (some r) ∧
      r.allowed = responseDecision input := by
  have hfindnone : rs.find? (matchPred features) = none := by
    rw [find_existing_face_eq features fs rs hload, Option.some_inj] at hunmatched
    exact hunmatched
  refine ⟨process_face_unmatched fs rs features input newId hload hunmatched,
    ⟨newId, features, responseDecision input⟩, ?_, rfl⟩
  have hp : matchPred features ⟨newId, features, responseDecision input⟩ = true := by
    apply matchPred_true_of_gt
    show cosine_similarity features features > 0.9
    rw [cosine_similarity_self features hmag]
    norm_num
  rw [find_existing_face_serialized, List.find?_append, hfindnone,
    List.find?_cons_of_pos _ hp]
  rfl

/-- C3 witness: enrolling the embedding `[1]` (nonzero magnitude) on the
empty store with response `"j"` and re-querying it. -/
theorem spec_c3_witness :
    magnitude [(1 : ℝ)] ≠ 0 ∧
    process_face fsEmpty [1] "j" "n1" =
      some (responseDecision "j",
        some (FileContent.serialized ([] ++ [⟨"n1", [1], responseDecision "j"⟩]))) ∧
    ∃ r : FaceEntry,
      find_existing_face [1]
          (some (FileContent.serialized ([] ++ [⟨"n1", [1], responseDecision "j"⟩]))) =
        some (some r) ∧ r.allowed = responseDecision "j" := by
  have hmag : magnitude [(1 : ℝ)] ≠ 0 := by
    rw [magnitude_one]
    norm_num
  have h := spec_c3 [1] fsEmpty [] "j" "n1" hmag rfl rfl
  exact ⟨hmag, h.1, h.2⟩

/-- C6: when `find_existing_face` returns a stored record, processing that
embedding leaves the backing store unchanged and emits the stored decision,
whatever the terminal input; hence two queries of the same embedding against
the unchanged store yield the same decision. -/
theorem spec_c6 (fs : Option FileContent) (features : List ℝ) (r : FaceEntry)
    (input1 id1 input2 id2 : String)
    (h : find_existing_face features fs = some (some r)) :
    process_face fs features input1 id1 = some (r.allowed, fs) ∧
    process_face fs features input2 id2 = some (r.allowed, fs) :=
  ⟨process_face_matched fs features r input1 id1 h,
    process_face_matched fs features r input2 id2 h⟩

/-- C6 witness: querying the concrete matched embedding `[1]` against the
one-record store twice, with different terminal inputs, changes nothing and
yields the stored decision both times. -/
theorem spec_c6_witness :
    find_existing_face [1] fsA = some (some entryA) ∧
    process_face fsA [1] "j" "x1" = some (entryA.allowed, fsA) ∧
    process_face fsA [1] "n" "x2" = some (entryA.allowed, fsA) := by
  have h := spec_c6 fsA [1] entryA "j" "x1" "n" "x2" find_entryA
  exact ⟨find_entryA, h.1, h.2⟩

/-- C8: the decision computed on the Unmatched path is granted exactly when
the terminal input, after trimming whitespace and lowercasing, is the
affirmative token `"j"`; every other input is treated as denial. -/
theorem spec_c8 (response : String) :
    (responseDecision response = true ↔ response.trim.toLower = "j") ∧
    (responseDecision response = false ↔ response.trim.toLower ≠ "j") := by
  unfold responseDecision
  exact ⟨beq_iff_eq, beq_eq_false_iff_ne⟩

/-- C9: a query embedding of zero magnitude matches nothing — every
similarity against it divides by a zero norm product and the strict
comparison with `0.9` fails — so `find_existing_face` returns `none` and the
query always takes the enrollment path. -/
theorem spec_c9 (q : List ℝ) (fs : Option FileContent) (rs : List FaceEntry)
    (hq : magnitude q = 0) (hload : load_face_data fs = some rs) :
    find_existing_face q fs = some none ∧
    ∀ input newId : String,
      process_face fs q input newId =
        some (responseDecision input,
          some (FileContent.serialized (rs ++ [⟨newId, q, responseDecision input⟩]))) := by
  have hfind : find_existing_face q fs = some none := by
    rw [find_existing_face_eq q fs rs hload]
    congr 1
    rw [List.find?_eq_none]
    intro x _
    simp only [matchPred_eq_true_iff]
    rw [cosine_similarity_zero_right x.features q hq]
    norm_num
  exact ⟨hfind, fun input newId => process_face_unmatched fs rs q input newId hload hfind⟩

/-- C9 witness: the zero query `[0]` against the concrete one-record store
returns no match. -/
theorem spec_c9_witness :
    magnitude [(0 : ℝ)] = 0 ∧ find_existing_face [0] fsA = some none := by
  have h0 : magnitude [(0 : ℝ)] = 0 := by
    simp [magnitude, sumSq]
  exact ⟨h0, (spec_c9 [0] fsA [entryA] h0 rfl).1⟩

end Facerec
